import Mathlib

/-!
Verification of the Manthan event-management backend's registration /
check-in / certificate lifecycle, as implemented in
`backend/models/Event.js`, `backend/models/User.js`, the Registration and
Certificate schemas, `backend/utils/qrCode.js` and the registration routes
(`routes/registrations.js`).

The JavaScript code is shallowly embedded: Mongoose documents become Lean
structures, route handlers become functions `St → Except String St` where
`Except.error m` is the route's structured rejection with message `m`,
and JavaScript number fields that may be `undefined` (no schema default)
become `Option` values.  Comparisons with `undefined`/`NaN` are modelled
by dedicated helpers (`jsLtOpt`, `jsGeOpt`, ...) that return `false`,
exactly as the JavaScript comparison operators do on `undefined`/`NaN`.
ObjectIds are modelled as `Nat` (JS compares their string forms; the
decimal rendering is injective so equality agrees).  Timestamps are `Int`
milliseconds.
-/

namespace Manthan

/-- `status` enum of the Event schema (Event.js). -/
inductive EventStatus
  | draft | pendingS | approved | rejected | activeS | completed | cancelled
deriving DecidableEq, Repr

/-- `status` enum of the Registration schema. -/
inductive RegStatus
  | pendingS | confirmed | cancelled | waitlisted | checkedIn | completed
deriving DecidableEq, Repr

/-- `paymentStatus` enum of the Registration schema. -/
inductive PayStatus
  | pendingS | completed | failed | refunded | notRequired
deriving DecidableEq, Repr

/-- `role` enum of the User schema (User.js). -/
inductive Role
  | student | organizer | admin
deriving DecidableEq, Repr

/-- `status` enum of the Certificate schema (Certificate.js). -/
inductive CertStatus
  | activeS | revoked | expired | pendingS
deriving DecidableEq, Repr

/-- JS `a < b` where `b` may be `undefined`: any comparison with
`undefined` (which coerces to `NaN`) yields `false`. -/
def jsLtOpt (a : Nat) (b : Option Nat) : Bool :=
  match b with
  | some m => a < m
  | none => false

/-- JS `a >= b` where `b` may be `undefined`: `false` when `b` is
`undefined`. -/
def jsGeOpt (a : Nat) (b : Option Nat) : Bool :=
  match b with
  | some m => m ≤ a
  | none => false

/-- JS `x + d` on a number field that may hold `undefined`/`NaN`
(`undefined + 1` is `NaN`, and `NaN` absorbs further arithmetic). -/
def jsAddOpt (a : Option Int) (d : Int) : Option Int :=
  match a with
  | some x => some (x + d)
  | none => none

/-- An Event document (Event.js schema), restricted to the fields the
registration lifecycle reads.  `maxParticipants` has no schema default
and is optional, hence `Option Nat` (`none` = field unset). -/
structure Event where
  id : Nat
  status : EventStatus
  registrationDeadline : Int
  startDate : Int
  endDate : Int
  maxParticipants : Option Nat
  currentParticipants : Nat
  registrationFee : Nat
  isTeamEvent : Bool
  teamSizeMax : Nat
  organizer : Nat
  coOrganizers : List Nat
deriving DecidableEq, Repr

/-- The `isRegistrationOpen` virtual of Event.js:
`now <= registrationDeadline && status === 'approved' &&
currentParticipants < maxParticipants`.  Note the last conjunct is the
raw JS comparison, which is `false` when `maxParticipants` is unset. -/
def isRegistrationOpen (e : Event) (now : Int) : Bool :=
  decide (now ≤ e.registrationDeadline) &&
  decide (e.status = EventStatus.approved) &&
  jsLtOpt e.currentParticipants e.maxParticipants

/-- `eventSchema.methods.addParticipant`: increments the counter when
`currentParticipants < maxParticipants`, otherwise throws 'Event is
full'. -/
def addParticipant (e : Event) : Except String Event :=
  if jsLtOpt e.currentParticipants e.maxParticipants then
    Except.ok { e with currentParticipants := e.currentParticipants + 1 }
  else
    Except.error "Event is full"

/-- `eventSchema.methods.removeParticipant`: decrements the counter but
never below zero (no-op at zero). -/
def removeParticipant (e : Event) : Event :=
  if 0 < e.currentParticipants then
    { e with currentParticipants := e.currentParticipants - 1 }
  else
    e

/-- A User document (User.js), restricted to the fields the lifecycle
reads/writes. -/
structure User where
  id : Nat
  name : String
  email : String
  role : Role
  points : Int
deriving DecidableEq, Repr

/-- An entry of `teamInfo.teamMembers` in the Registration schema. -/
structure TeamMember where
  user : Nat
  name : String
  email : String
  role : String
deriving DecidableEq, Repr

/-- The `teamInfo` sub-document of a Registration.  `maxMembers` has no
default and is only set on the team lead's registration, hence
`Option Nat`. -/
structure TeamInfo where
  isTeamLead : Bool
  teamName : String
  teamCode : String
  maxMembers : Option Nat
  teamMembers : List TeamMember
deriving DecidableEq, Repr

/-- The `checkIn` sub-document of a Registration. -/
structure CheckInInfo where
  isCheckedIn : Bool
  checkInMethod : Option String
  checkInLocation : String
  checkedInBy : Option Nat
deriving DecidableEq, Repr

/-- One entry of `attendance.sessions`. -/
structure SessionEntry where
  sessionName : String
  attended : Bool
deriving DecidableEq, Repr

/-- The `attendance` sub-document.  `totalSessions` and
`attendedSessions` have no schema default, so on a freshly created
registration they are `undefined`; arithmetic on them produces `NaN`.
Both states are modelled by `none`.  `attendancePercentage` defaults to
`0`; it is `Option ℚ` so that a `NaN` result of the recomputation (when
the counters are undefined) is representable as `none`. -/
structure AttendanceInfo where
  sessions : List SessionEntry
  totalSessions : Option Int
  attendedSessions : Option Int
  attendancePercentage : Option ℚ
deriving DecidableEq, Repr

/-- The in-memory `attendance` object of a Registration created by the
routes: array default `[]`, numeric counters unset, percentage default
`0`. -/
def initialAttendance : AttendanceInfo :=
  { sessions := [], totalSessions := none, attendedSessions := none,
    attendancePercentage := some 0 }

/-- The default `checkIn` object of a new Registration. -/
def initialCheckIn : CheckInInfo :=
  { isCheckedIn := false, checkInMethod := none, checkInLocation := "",
    checkedInBy := none }

/-- A Registration document, restricted to the fields the lifecycle
reads/writes. -/
structure Registration where
  id : Nat
  user : Nat
  event : Nat
  status : RegStatus
  paymentStatus : PayStatus
  amountPaid : Nat
  teamInfo : Option TeamInfo
  checkIn : CheckInInfo
  attendance : AttendanceInfo
  qrCode : Option Nat
  feedbackSubmittedAt : Option Int
deriving DecidableEq, Repr

/-- The persistent world the registration routes act on: a single Event
document, the Registration collection, the User collection, and a
counter minting fresh registration ObjectIds. -/
structure St where
  event : Event
  registrations : List Registration
  users : List User
  nextRegId : Nat
deriving DecidableEq, Repr

/-- `User.findById` on the world's user collection. -/
def findUser (s : St) (uid : Nat) : Option User :=
  s.users.find? (fun u => decide (u.id = uid))

/-- The points balance of a user, `none` when the user does not exist. -/
def userPoints (s : St) (uid : Nat) : Option Int :=
  (findUser s uid).map (fun u => u.points)

/-- `userSchema.methods.addPoints` applied to the stored user document:
`this.points += points`. -/
def addPoints (s : St) (uid : Nat) (pts : Int) : St :=
  { s with users := s.users.map (fun u =>
      if u.id = uid then { u with points := u.points + pts } else u) }

/-- `Registration.findById`. -/
def findReg (s : St) (rid : Nat) : Option Registration :=
  s.registrations.find? (fun r => decide (r.id = rid))

/-- `Registration.findOne({user, event})` — any status matches. -/
def findRegByUserEvent (s : St) (uid eid : Nat) : Option Registration :=
  s.registrations.find? (fun r => decide (r.user = uid) && decide (r.event = eid))

/-- The team code generated on lead registration:
`` `TEAM-${Date.now().toString(36).toUpperCase()}` ``.  The base-36
rendering is injective in `now`; we render in decimal. -/
def generateTeamCode (now : Int) : String :=
  "TEAM-" ++ toString now

/-- `POST /api/registrations` (routes/registrations.js).  `teamName`
models the optional `teamInfo.teamName` of the request body; `qrOk`
models whether the best-effort QR-token generation step succeeds (its
failure is caught and only logged).  The checks appear in source order:
event lookup, `status === 'approved'`, `isRegistrationOpen`, duplicate
`(user, event)` lookup, `currentParticipants >= maxParticipants`. -/
def createRegistration (s : St) (uid eid : Nat) (teamName : Option String)
    (now : Int) (qrOk : Bool) : Except String St :=
  if eid ≠ s.event.id then Except.error "Event not found"
  else if s.event.status ≠ EventStatus.approved then
    Except.error "Event is not available for registration"
  else if !(isRegistrationOpen s.event now) then
    Except.error "Registration for this event is closed"
  else if (findRegByUserEvent s uid eid).isSome then
    Except.error "You are already registered for this event"
  else if jsGeOpt s.event.currentParticipants s.event.maxParticipants then
    Except.error "Event is full"
  else
    let rid := s.nextRegId
    let teamInfo : Option TeamInfo :=
      if s.event.isTeamEvent then
        match teamName with
        | some nm =>
            some { isTeamLead := true, teamName := nm,
                   teamCode := generateTeamCode now,
                   maxMembers := some s.event.teamSizeMax, teamMembers := [] }
        | none => none
      else none
    let reg : Registration :=
      { id := rid, user := uid, event := eid, status := RegStatus.confirmed,
        paymentStatus :=
          if s.event.registrationFee > 0 then PayStatus.pendingS
          else PayStatus.notRequired,
        amountPaid := s.event.registrationFee, teamInfo := teamInfo,
        checkIn := initialCheckIn, attendance := initialAttendance,
        qrCode := if qrOk then some rid else none,
        feedbackSubmittedAt := none }
    match addParticipant s.event with
    | Except.error m => Except.error m
    | Except.ok event' =>
        Except.ok (addPoints
          { s with event := event',
                   registrations := s.registrations ++ [reg],
                   nextRegId := rid + 1 }
          uid 10)

/-- `DELETE /api/registrations/:id`: cancel a registration.  Owner or
admin only; rejected once `new Date() >= event.startDate`; sets status
`cancelled` and calls `event.removeParticipant()`.  No point reversal. -/
def cancelRegistration (s : St) (rid : Nat) (actor : User) (now : Int) :
    Except String St :=
  match findReg s rid with
  | none => Except.error "Registration not found"
  | some registration =>
      if ¬ (registration.user = actor.id ∨ actor.role = Role.admin) then
        Except.error "Not authorized to cancel this registration"
      else if s.event.startDate ≤ now then
        Except.error "Cannot cancel registration after event has started"
      else
        Except.ok
          { s with
            registrations := s.registrations.map (fun r =>
              if r.id = rid then { r with status := RegStatus.cancelled } else r),
            event := removeParticipant s.event }

/-- The decoded JSON structure carried in a check-in QR payload
(qrCode.js `generateEventQR`); each field is `Option` because an
arbitrary JSON object may lack it (JS reads then yield `undefined`). -/
structure QRData where
  type : Option String
  registrationId : Option Nat
  eventId : Option Nat
  timestamp : Option Int
deriving DecidableEq, Repr

/-- The raw string presented at check-in: either a JSON object or a
plain non-JSON string. -/
inductive QRInput
  | json (d : QRData)
  | raw (s : String)
deriving DecidableEq, Repr

/-- Result object of `parseQRData`. -/
structure ParsedQR where
  success : Bool
  data : QRData
deriving DecidableEq, Repr

/-- `parseQRData` (qrCode.js): tries `JSON.parse`; on failure falls back
to `{ url: qrString }` with `success: true`.  Consequently `success` is
`true` on every input, and on the fallback every check-in field of the
data object is `undefined`. -/
def parseQRData : QRInput → ParsedQR
  | QRInput.json d => { success := true, data := d }
  | QRInput.raw _ =>
      { success := true,
        data := { type := none, registrationId := none, eventId := none,
                  timestamp := none } }

/-- `validateCheckInQR` (qrCode.js): checks, in order, the `type`
discriminator, the exact event id, and the 24-hour age window; on
success returns the payload's `registrationId`.  A missing `timestamp`
makes the age `NaN`, and `NaN > maxAge` is `false`, so the age check
passes. -/
def validateCheckInQR (d : QRData) (expectedEventId : Nat) (now : Int) :
    Except String (Option Nat) :=
  if d.type ≠ some "event-checkin" then
    Except.error "Invalid QR code type for check-in"
  else if d.eventId ≠ some expectedEventId then
    Except.error "QR code is for a different event"
  else if (match d.timestamp with
           | some ts => decide (now - ts > 24 * 60 * 60 * 1000)
           | none => false) then
    Except.error "QR code has expired"
  else
    Except.ok d.registrationId

/-- The QR validation block of `POST /api/registrations/:id/checkin`:
parse, the (dead) `success` test, `validateCheckInQR`, then the
registration-id comparison against the target registration. -/
def checkInQRCheck (inp : QRInput) (expectedEventId regId : Nat) (now : Int) :
    Except String Unit :=
  let p := parseQRData inp
  if p.success = false then Except.error "Invalid QR code format"
  else
    match validateCheckInQR p.data expectedEventId now with
    | Except.error m => Except.error m
    | Except.ok registrationId =>
        if registrationId ≠ some regId then
          Except.error "QR code does not match this registration"
        else Except.ok ()

/-- `registrationSchema.methods.checkIn`: records the check-in and sets
status `checked-in`. -/
def Registration.markCheckedIn (r : Registration) (method location : String)
    (checkedInBy : Nat) : Registration :=
  { r with
    checkIn := { isCheckedIn := true, checkInMethod := some method,
                 checkInLocation := location, checkedInBy := some checkedInBy },
    status := RegStatus.checkedIn }

/-- `POST /api/registrations/:id/checkin`.  Source order: registration
lookup, organizer/co-organizer/admin authorization, the already-checked-in
test, optional QR validation (only when `method === 'qr-code'` and
`qrData` was supplied), then `registration.checkIn(...)` and a 20-point
attendance award to the registration's user. -/
def checkinRoute (s : St) (rid : Nat) (actor : User) (method location : String)
    (qrData : Option QRInput) (now : Int) : Except String St :=
  match findReg s rid with
  | none => Except.error "Registration not found"
  | some registration =>
      if ¬ (s.event.organizer = actor.id ∨ actor.id ∈ s.event.coOrganizers ∨
            actor.role = Role.admin) then
        Except.error "Not authorized to check-in users for this event"
      else if registration.checkIn.isCheckedIn then
        Except.error "User is already checked in"
      else
        let qrCheck : Except String Unit :=
          if method = "qr-code" then
            match qrData with
            | some inp => checkInQRCheck inp s.event.id registration.id now
            | none => Except.ok ()
          else Except.ok ()
        match qrCheck with
        | Except.error m => Except.error m
        | Except.ok _ =>
            let registration' := registration.markCheckedIn method location actor.id
            Except.ok (addPoints
              { s with registrations := s.registrations.map (fun r =>
                  if r.id = rid then registration' else r) }
              registration.user 20)

/-- Repeated check-in calls: a rejected call performs no write, a
successful one commits its state. -/
def applyCheckinCalls (rid : Nat) (actor : User) (method location : String)
    (now : Int) : St → Nat → St
  | s, 0 => s
  | s, n + 1 =>
      let s' := match checkinRoute s rid actor method location none now with
                | Except.ok s' => s'
                | Except.error _ => s
      applyCheckinCalls rid actor method location now s' n

/-- `Registration.findOne({'teamInfo.teamCode': code, event, 'teamInfo.isTeamLead': true})`. -/
def findTeamLead (s : St) (code : String) (eid : Nat) : Option Registration :=
  s.registrations.find? (fun r =>
    match r.teamInfo with
    | some ti => decide (ti.teamCode = code) && ti.isTeamLead && decide (r.event = eid)
    | none => false)

/-- `registrationSchema.methods.addTeamMember`: throws 'Team is full'
when `teamMembers.length >= maxMembers - 1` (the comparison is over JS
numbers, hence `false` when `maxMembers` is `undefined`), otherwise
pushes the member.  The `!this.teamInfo` init branch builds a teamInfo
holding only an empty member list; it is unreachable from the modelled
routes, which only call this on a team lead. -/
def Registration.addTeamMember (r : Registration) (m : TeamMember) :
    Except String Registration :=
  match r.teamInfo with
  | none =>
      let ti0 : TeamInfo :=
        { isTeamLead := false, teamName := "", teamCode := "",
          maxMembers := none, teamMembers := [m] }
      Except.ok { r with teamInfo := some ti0 }
  | some ti =>
      if (match ti.maxMembers with
          | some mm => decide ((ti.teamMembers.length : Int) ≥ (mm : Int) - 1)
          | none => false) then
        Except.error "Team is full"
      else
        Except.ok { r with teamInfo := some { ti with teamMembers := ti.teamMembers ++ [m] } }

/-- `POST /api/registrations/join-team`.  Source order: team-lead lookup
by code/event, duplicate `(user, event)` lookup, the team-full test
(`teamMembers.length + 1 >= maxMembers`), member-registration creation,
`addTeamMember` on the lead, `event.addParticipant()`, 10-point award.
The event document is reached through the lead's populated `event`
reference; in this one-event world that is `s.event`. -/
def joinTeam (s : St) (uid : Nat) (uname uemail : String) (teamCode : String)
    (eid : Nat) : Except String St :=
  match findTeamLead s teamCode eid with
  | none => Except.error "Team not found or invalid team code"
  | some lead =>
      match lead.teamInfo with
      | none => Except.error "Team not found or invalid team code"
      | some ti =>
          if (findRegByUserEvent s uid eid).isSome then
            Except.error "You are already registered for this event"
          else if jsGeOpt (ti.teamMembers.length + 1) ti.maxMembers then
            Except.error "Team is already full"
          else
            let rid := s.nextRegId
            let memberReg : Registration :=
              { id := rid, user := uid, event := eid,
                status := RegStatus.confirmed,
                paymentStatus :=
                  if s.event.registrationFee > 0 then PayStatus.pendingS
                  else PayStatus.notRequired,
                amountPaid := s.event.registrationFee,
                teamInfo := some { isTeamLead := false, teamName := ti.teamName,
                                   teamCode := teamCode, maxMembers := none,
                                   teamMembers := [] },
                checkIn := initialCheckIn, attendance := initialAttendance,
                qrCode := none, feedbackSubmittedAt := none }
            match lead.addTeamMember
                { user := uid, name := uname, email := uemail, role := "Member" } with
            | Except.error m => Except.error m
            | Except.ok leadNew =>
                match addParticipant s.event with
                | Except.error m => Except.error m
                | Except.ok event' =>
                    Except.ok (addPoints
                      { s with event := event',
                               registrations :=
                                 (s.registrations.map (fun r =>
                                   if r.id = lead.id then leadNew else r)) ++ [memberReg],
                               nextRegId := rid + 1 }
                      uid 10)

/-- Number of registrations sharing a team code. -/
def codeCount (s : St) (code : String) : Nat :=
  (s.registrations.filter (fun r =>
    match r.teamInfo with
    | some ti => decide (ti.teamCode = code)
    | none => false)).length

/-- Update the first session entry with the given name (JS `find` returns
the first match and the method mutates that entry in place). -/
def updateFirstSession : List SessionEntry → String → Bool → List SessionEntry
  | [], _, _ => []
  | e :: rest, nm, att =>
      if e.sessionName = nm then { e with attended := att } :: rest
      else e :: updateFirstSession rest nm att

/-- `registrationSchema.methods.markSessionAttendance` (without the final
`save()`).  The `!this.attendance` zero-initialisation branch of the
source is omitted: on a Mongoose document the nested `attendance` object
always exists (its array and percentage fields have defaults), so that
branch never runs and the numeric counters start `undefined`. -/
def markSessionAttendance (a : AttendanceInfo) (nm : String) (attended : Bool) :
    AttendanceInfo :=
  match a.sessions.find? (fun e => decide (e.sessionName = nm)) with
  | some existingSession =>
      let wasAttended := existingSession.attended
      let a' := { a with sessions := updateFirstSession a.sessions nm attended }
      if attended && !wasAttended then
        { a' with attendedSessions := jsAddOpt a'.attendedSessions 1 }
      else if !attended && wasAttended then
        { a' with attendedSessions := jsAddOpt a'.attendedSessions (-1) }
      else a'
  | none =>
      let a' := { a with
        sessions := a.sessions ++ [{ sessionName := nm, attended := attended }],
        totalSessions := jsAddOpt a.totalSessions 1 }
      if attended then
        { a' with attendedSessions := jsAddOpt a'.attendedSessions 1 }
      else a'

/-- JS `(attendedSessions / totalSessions) * 100`: `NaN` (here `none`)
when `attendedSessions` is `undefined`/`NaN`. -/
def jsPercentage (attended : Option Int) (total : Int) : Option ℚ :=
  match attended with
  | some k => some ((k : ℚ) / (total : ℚ) * 100)
  | none => none

/-- The `registrationSchema.pre('save')` hook: recomputes
`attendancePercentage` only when `attendance.totalSessions > 0`, a test
that is `false` when the counter is `undefined`/`NaN`. -/
def attendanceSaveHook (a : AttendanceInfo) : AttendanceInfo :=
  match a.totalSessions with
  | some t =>
      if 0 < t then
        { a with attendancePercentage := jsPercentage a.attendedSessions t }
      else a
  | none => a

/-- One session-attendance call as seen by a caller: the method followed
by the document save (which runs the pre-save hook). -/
def markSessionAttendanceAndSave (a : AttendanceInfo) (nm : String)
    (attended : Bool) : AttendanceInfo :=
  attendanceSaveHook (markSessionAttendance a nm attended)

/-- A sequence of session-attendance calls. -/
def applySessionCalls (a : AttendanceInfo) : List (String × Bool) → AttendanceInfo
  | [] => a
  | (nm, att) :: rest =>
      applySessionCalls (markSessionAttendanceAndSave a nm att) rest

/-- A Certificate document (Certificate.js), restricted to the fields the
verification/revocation flow reads. -/
structure Certificate where
  id : Nat
  user : Nat
  event : Nat
  verificationCode : String
  status : CertStatus
  revokedBy : Option Nat
  revokedReason : Option String
deriving DecidableEq, Repr

/-- `certificateSchema.methods.revoke`: one-way transition to `revoked`. -/
def Certificate.revoke (c : Certificate) (revokedBy : Nat) (reason : String) :
    Certificate :=
  { c with status := CertStatus.revoked, revokedBy := some revokedBy,
           revokedReason := some reason }

/-- Admin revocation applied to the stored certificate document. -/
def revokeById (certs : List Certificate) (cid revokedBy : Nat)
    (reason : String) : List Certificate :=
  certs.map (fun c => if c.id = cid then c.revoke revokedBy reason else c)

/-- `certificateSchema.statics.verifyCertificate`:
`findOne({'verification.verificationCode': code, status: 'active'})`. -/
def verifyCertificate (certs : List Certificate) (code : String) :
    Option Certificate :=
  certs.find? (fun c =>
    decide (c.verificationCode = code) && decide (c.status = CertStatus.activeS))

/-! ### Concrete states used by the claim theorems and witnesses -/

/-- An approved event whose `maxParticipants` field is unset (the spec's
"nullable = unlimited" capacity), with the registration deadline still in
the future. -/
def unlimitedEvent : Event :=
  { id := 1, status := EventStatus.approved, registrationDeadline := 1000,
    startDate := 2000, endDate := 3000, maxParticipants := none,
    currentParticipants := 0, registrationFee := 0, isTeamEvent := false,
    teamSizeMax := 1, organizer := 99, coOrganizers := [] }

/-- World containing `unlimitedEvent` and a single user with no
registration. -/
def unlimitedSt : St :=
  { event := unlimitedEvent,
    registrations := [],
    users := [{ id := 7, name := "A", email := "a", role := Role.student,
                points := 0 }],
    nextRegId := 1 }

/-- The event of the capacity-1 scenario: `maxParticipants = 1`,
`registrationFee = 0`. -/
def capOneEvent : Event :=
  { id := 1, status := EventStatus.approved, registrationDeadline := 1000,
    startDate := 2000, endDate := 3000, maxParticipants := some 1,
    currentParticipants := 0, registrationFee := 0, isTeamEvent := false,
    teamSizeMax := 1, organizer := 99, coOrganizers := [] }

/-- Start of the capacity-1 scenario: users A (id 1) and B (id 2), no
registrations. -/
def c2Start : St :=
  { event := capOneEvent,
    registrations := [],
    users := [{ id := 1, name := "A", email := "a", role := Role.student, points := 0 },
              { id := 2, name := "B", email := "b", role := Role.student, points := 0 }],
    nextRegId := 1 }

/-- The state after user A's successful registration. -/
def c2AfterA : St :=
  (createRegistration c2Start 1 1 none 100 true).toOption.getD c2Start

/-- User A as the authenticated caller of the cancellation request. -/
def c2ActorA : User :=
  { id := 1, name := "A", email := "a", role := Role.student, points := 10 }

/-- The state after user A cancels before the event's start date. -/
def c2AfterCancel : St :=
  (cancelRegistration c2AfterA 1 c2ActorA 150).toOption.getD c2AfterA

/-- An approved event with free capacity used for the duplicate-registration
claim. -/
def c3Event : Event :=
  { id := 1, status := EventStatus.approved, registrationDeadline := 1000,
    startDate := 2000, endDate := 3000, maxParticipants := some 5,
    currentParticipants := 0, registrationFee := 0, isTeamEvent := false,
    teamSizeMax := 1, organizer := 99, coOrganizers := [] }

/-- A registration of user 1 for `c3Event` whose status is `cancelled`. -/
def c3CancelledReg : Registration :=
  { id := 1, user := 1, event := 1, status := RegStatus.cancelled,
    paymentStatus := PayStatus.notRequired, amountPaid := 0, teamInfo := none,
    checkIn := initialCheckIn, attendance := initialAttendance, qrCode := none,
    feedbackSubmittedAt := none }

/-- World where user 1 holds a cancelled registration for the event. -/
def c3St : St :=
  { event := c3Event,
    registrations := [c3CancelledReg],
    users := [{ id := 1, name := "A", email := "a", role := Role.student, points := 10 }],
    nextRegId := 2 }

/-- An approved open event with a positive registration fee, used to
witness the create-success claim. -/
def c4Event : Event :=
  { id := 2, status := EventStatus.approved, registrationDeadline := 1000,
    startDate := 2000, endDate := 3000, maxParticipants := some 5,
    currentParticipants := 0, registrationFee := 7, isTeamEvent := false,
    teamSizeMax := 1, organizer := 99, coOrganizers := [] }

/-- World for the create-success witness. -/
def c4St : St :=
  { event := c4Event,
    registrations := [],
    users := [{ id := 3, name := "C", email := "c", role := Role.student, points := 5 }],
    nextRegId := 10 }

/-- Event for the self-checkin claim: user 1 owns a registration but is
neither organizer (id 99) nor co-organizer nor admin. -/
def c6Event : Event :=
  { id := 1, status := EventStatus.approved, registrationDeadline := 1000,
    startDate := 2000, endDate := 3000, maxParticipants := some 10,
    currentParticipants := 1, registrationFee := 0, isTeamEvent := false,
    teamSizeMax := 1, organizer := 99, coOrganizers := [] }

/-- The registration's owner: a plain student. -/
def c6Owner : User :=
  { id := 1, name := "A", email := "a", role := Role.student, points := 10 }

/-- User 1's confirmed, not-yet-checked-in registration. -/
def c6Reg : Registration :=
  { id := 1, user := 1, event := 1, status := RegStatus.confirmed,
    paymentStatus := PayStatus.notRequired, amountPaid := 0, teamInfo := none,
    checkIn := initialCheckIn, attendance := initialAttendance, qrCode := none,
    feedbackSubmittedAt := none }

/-- World for the self-checkin claim. -/
def c6St : St :=
  { event := c6Event,
    registrations := [c6Reg],
    users := [c6Owner],
    nextRegId := 2 }

/-- Event for the check-in idempotence witness, organized by user 50. -/
def c7Event : Event :=
  { id := 1, status := EventStatus.approved, registrationDeadline := 1000,
    startDate := 2000, endDate := 3000, maxParticipants := some 10,
    currentParticipants := 1, registrationFee := 0, isTeamEvent := false,
    teamSizeMax := 1, organizer := 50, coOrganizers := [] }

/-- The organizer performing the check-in. -/
def c7Organizer : User :=
  { id := 50, name := "Org", email := "o", role := Role.organizer, points := 0 }

/-- The attendee's confirmed, not-yet-checked-in registration. -/
def c7Reg : Registration :=
  { id := 1, user := 1, event := 1, status := RegStatus.confirmed,
    paymentStatus := PayStatus.notRequired, amountPaid := 0, teamInfo := none,
    checkIn := initialCheckIn, attendance := initialAttendance, qrCode := none,
    feedbackSubmittedAt := none }

/-- World for the check-in idempotence witness. -/
def c7St : St :=
  { event := c7Event,
    registrations := [c7Reg],
    users := [{ id := 1, name := "A", email := "a", role := Role.student, points := 10 },
              c7Organizer],
    nextRegId := 2 }

/-- Team event with `teamSize.max = 3` and room in overall capacity. -/
def c8Event : Event :=
  { id := 1, status := EventStatus.approved, registrationDeadline := 1000,
    startDate := 2000, endDate := 3000, maxParticipants := some 10,
    currentParticipants := 0, registrationFee := 0, isTeamEvent := true,
    teamSizeMax := 3, organizer := 99, coOrganizers := [] }

/-- Start of the team scenario: users 1 (lead), 2, 3, 4. -/
def c8s0 : St :=
  { event := c8Event,
    registrations := [],
    users := [{ id := 1, name := "A", email := "a", role := Role.student, points := 0 },
              { id := 2, name := "B", email := "b", role := Role.student, points := 0 },
              { id := 3, name := "C", email := "c", role := Role.student, points := 0 },
              { id := 4, name := "D", email := "d", role := Role.student, points := 0 }],
    nextRegId := 1 }

/-- After the lead registers with team name "Rocket" at `now = 100`
(team code `TEAM-100`). -/
def c8s1 : St :=
  (createRegistration c8s0 1 1 (some "Rocket") 100 true).toOption.getD c8s0

/-- After the first member joins. -/
def c8s2 : St :=
  (joinTeam c8s1 2 "B" "b" "TEAM-100" 1).toOption.getD c8s1

/-- After the second member joins (team size 3 = lead + 2 members). -/
def c8s3 : St :=
  (joinTeam c8s2 3 "C" "c" "TEAM-100" 1).toOption.getD c8s2

/-- A placeholder registration used as `getD` default. -/
def dummyReg : Registration :=
  { id := 0, user := 0, event := 0, status := RegStatus.pendingS,
    paymentStatus := PayStatus.notRequired, amountPaid := 0, teamInfo := none,
    checkIn := initialCheckIn, attendance := initialAttendance, qrCode := none,
    feedbackSubmittedAt := none }

/-- The team lead's registration in the full-team state. -/
def c8lead3 : Registration :=
  (findTeamLead c8s3 "TEAM-100" 1).getD dummyReg

/-- The team lead's `teamInfo` in the full-team state. -/
def c8ti3 : TeamInfo :=
  c8lead3.teamInfo.getD
    { isTeamLead := false, teamName := "", teamCode := "",
      maxMembers := none, teamMembers := [] }

/-- An active certificate used by the verification witness. -/
def wCert : Certificate :=
  { id := 1, user := 1, event := 1, verificationCode := "ABCD1234",
    status := CertStatus.activeS, revokedBy := none, revokedReason := none }

/-! ### Helper lemmas -/

/-- When the JS comparison `current < max` holds, the route's fullness
test `current >= max` fails. -/
lemma jsGeOpt_eq_false_of_jsLtOpt {a : Nat} {b : Option Nat}
    (h : jsLtOpt a b = true) : jsGeOpt a b = false := by
  cases b with
  | none => simp [jsLtOpt] at h
  | some m =>
      simp only [jsLtOpt, decide_eq_true_eq] at h
      simp only [jsGeOpt, decide_eq_false_iff_not]
      omega

/-- Unfolding of the `isRegistrationOpen` virtual. -/
lemma isRegistrationOpen_iff {e : Event} {now : Int} :
    isRegistrationOpen e now = true ↔
      now ≤ e.registrationDeadline ∧ e.status = EventStatus.approved ∧
      jsLtOpt e.currentParticipants e.maxParticipants = true := by
  simp [isRegistrationOpen, Bool.and_eq_true, and_assoc]

/-- A stored registration for the pair makes the duplicate lookup hit. -/
lemma findRegByUserEvent_isSome {s : St} {uid eid : Nat} {r : Registration}
    (hr : r ∈ s.registrations) (hu : r.user = uid) (he : r.event = eid) :
    (findRegByUserEvent s uid eid).isSome = true := by
  unfold findRegByUserEvent
  rw [List.find?_isSome]
  exact ⟨r, hr, by simp [hu, he]⟩

/-- Looking an id up after replacing the stored document with that id. -/
lemma find?_map_updateById (l : List Registration) (rid : Nat)
    (r' : Registration) (hid : r'.id = rid)
    (h : (l.find? (fun r => decide (r.id = rid))).isSome = true) :
    (l.map (fun r => if r.id = rid then r' else r)).find?
      (fun r => decide (r.id = rid)) = some r' := by
  induction l with
  | nil => simp at h
  | cons a t ih =>
      simp only [List.map_cons]
      by_cases ha : a.id = rid
      · rw [if_pos ha]
        exact List.find?_cons_of_pos _ (by simp [hid])
      · rw [if_neg ha, List.find?_cons_of_neg _ (by simp [ha])]
        rw [List.find?_cons_of_neg _ (by simp [ha])] at h
        exact ih h

/-- `find?` by id commutes with the points update (ids are preserved). -/
lemma find?_map_addPoints (l : List User) (uid : Nat) (p : Int) :
    (l.map (fun u =>
      if u.id = uid then { u with points := u.points + p } else u)).find?
        (fun u => decide (u.id = uid)) =
    (l.find? (fun u => decide (u.id = uid))).map
      (fun u => { u with points := u.points + p }) := by
  induction l with
  | nil => rfl
  | cons a t ih =>
      simp only [List.map_cons]
      by_cases ha : a.id = uid
      · rw [if_pos ha]
        rw [List.find?_cons_of_pos _ (by simp [ha]),
            List.find?_cons_of_pos _ (by simp [ha])]
        rfl
      · rw [if_neg ha]
        rw [List.find?_cons_of_neg _ (by simp [ha]),
            List.find?_cons_of_neg _ (by simp [ha])]
        exact ih

/-- The 10/20-point awards change exactly the target user's balance. -/
lemma userPoints_addPoints (s : St) (uid : Nat) (p : Int) :
    userPoints (addPoints s uid p) uid =
      (userPoints s uid).map (fun q => q + p) := by
  unfold userPoints findUser addPoints
  simp only [find?_map_addPoints, Option.map_map]
  rfl

/-- `addPoints` does not touch the event document. -/
lemma addPoints_event (s : St) (uid : Nat) (p : Int) :
    (addPoints s uid p).event = s.event := rfl

/-- `addPoints` does not touch the registration collection. -/
lemma addPoints_registrations (s : St) (uid : Nat) (p : Int) :
    (addPoints s uid p).registrations = s.registrations := rfl

/-! ### Claim theorems -/

/-- Claim C1: the spec says a registration attempt for an approved event
with unset `maxParticipants` (nullable = unlimited) made before the
deadline by an unregistered user succeeds.  The code disagrees: the
`isRegistrationOpen` virtual evaluates `currentParticipants <
maxParticipants` even for unset capacity, which in JS is
`0 < undefined = false`, so the attempt is rejected with
'Registration for this event is closed' although every precondition of
the claim holds.  This theorem evaluates the embedded route at that
failing input. -/
theorem claim1_unlimited_event_registration_rejected :
    ((500 : Int) ≤ unlimitedEvent.registrationDeadline ∧
     unlimitedEvent.status = EventStatus.approved ∧
     unlimitedEvent.maxParticipants = none ∧
     findRegByUserEvent unlimitedSt 7 1 = none) ∧
    createRegistration unlimitedSt 7 1 none 500 true =
      Except.error "Registration for this event is closed" :=
  ⟨⟨by decide, rfl, rfl, rfl⟩, rfl⟩

/-- Claim C2 counterexample: in the `maxParticipants = 1` scenario, user
B's registration attempt after A filled the event is rejected with
'Registration for this event is closed' — produced by the
`isRegistrationOpen` check, which runs before the dedicated 'Event is
full' branch — not with the message 'Event is full' the claim states. -/
theorem claim2_counterexample :
    createRegistration c2AfterA 2 1 none 150 true =
      Except.error "Registration for this event is closed" ∧
    "Registration for this event is closed" ≠ "Event is full" :=
  ⟨rfl, by decide⟩

/-- Claim C2 (amended): same scenario, with B's rejection message being
'Registration for this event is closed'.  A's registration succeeds with
`currentParticipants = 1`, status `confirmed` and a 10-point award; B is
then rejected; A's cancellation before the start date sets the status to
`cancelled`, decrements the counter back to 0 — and a further decrement
attempt leaves it at 0, never below — while A's balance stays 10. -/
theorem claim2_amended_scenario :
    createRegistration c2Start 1 1 none 100 true = Except.ok c2AfterA ∧
    c2AfterA.event.currentParticipants = 1 ∧
    (findReg c2AfterA 1).map (fun r => r.status) = some RegStatus.confirmed ∧
    userPoints c2AfterA 1 = some 10 ∧
    createRegistration c2AfterA 2 1 none 150 true =
      Except.error "Registration for this event is closed" ∧
    cancelRegistration c2AfterA 1 c2ActorA 150 = Except.ok c2AfterCancel ∧
    (findReg c2AfterCancel 1).map (fun r => r.status) = some RegStatus.cancelled ∧
    c2AfterCancel.event.currentParticipants = 0 ∧
    userPoints c2AfterCancel 1 = some 10 ∧
    removeParticipant c2AfterCancel.event = c2AfterCancel.event :=
  ⟨rfl, rfl, rfl, rfl, rfl, rfl, rfl, rfl, rfl, rfl⟩

/-- Claim C3 counterexample: user 1 holds a registration (status
`cancelled`) for the event, yet a second create attempt after the
registration deadline is rejected with 'Registration for this event is
closed', not with the duplicate-registration rejection — the duplicate
check runs only after the `isRegistrationOpen` check. -/
theorem claim3_counterexample :
    (c3CancelledReg ∈ c3St.registrations ∧ c3CancelledReg.user = 1 ∧
     c3CancelledReg.event = 1 ∧ c3CancelledReg.status = RegStatus.cancelled) ∧
    createRegistration c3St 1 1 none 2000 true =
      Except.error "Registration for this event is closed" ∧
    "Registration for this event is closed" ≠
      "You are already registered for this event" :=
  ⟨⟨by decide, rfl, rfl, rfl⟩, rfl, by decide⟩

/-- Claim C3 (amended): a second create for a (user, event) pair never
succeeds, and — provided the event is the target of the request and
registration is open (which entails `status = 'approved'`) — it is
rejected with the duplicate-registration message regardless of the
existing registration's status, including `cancelled`. -/
theorem claim3_amended (s : St) (uid eid : Nat) (teamName : Option String)
    (now : Int) (qrOk : Bool) (r : Registration)
    (hr : r ∈ s.registrations) (hu : r.user = uid) (he : r.event = eid) :
    (∀ s', createRegistration s uid eid teamName now qrOk ≠ Except.ok s') ∧
    (eid = s.event.id → isRegistrationOpen s.event now = true →
      createRegistration s uid eid teamName now qrOk =
        Except.error "You are already registered for this event") := by
  have hdup := findRegByUserEvent_isSome hr hu he
  constructor
  · intro s' hok
    unfold createRegistration at hok
    split_ifs at hok with h1 h2 h3
  · intro heid hopen
    obtain ⟨hd, hs, hlt⟩ := isRegistrationOpen_iff.mp hopen
    unfold createRegistration
    rw [if_neg (by simp [heid]), if_neg (by simp [hs]),
        if_neg (by simp [hopen]), if_pos hdup]

/-- Witness for the amended C3: with an open event and an existing
`cancelled` registration for (user 1, event 1), a second create yields
the duplicate-registration rejection. -/
theorem claim3_witness :
    c3CancelledReg.status = RegStatus.cancelled ∧
    createRegistration c3St 1 1 none 100 true =
      Except.error "You are already registered for this event" :=
  ⟨rfl, (claim3_amended c3St 1 1 none 100 true c3CancelledReg (by decide)
    rfl rfl).2 rfl (by decide)⟩

/-- Claim C4: every successful registration creation yields a
registration with status `confirmed`, payment status `not-required`
exactly when the event's fee is zero and `pending` otherwise, increments
the event's participant counter by one, awards exactly 10 points to the
user — and succeeds for either outcome of the best-effort QR generation
step (`qrOk` is universally quantified; when it fails the registration is
stored without a token). -/
theorem claim4_create_success (s : St) (uid : Nat) (teamName : Option String)
    (now : Int) (qrOk : Bool)
    (hopen : isRegistrationOpen s.event now = true)
    (hnodup : findRegByUserEvent s uid s.event.id = none) :
    ∃ r s',
      createRegistration s uid s.event.id teamName now qrOk = Except.ok s' ∧
      s' = addPoints
        { s with
          event := { s.event with
            currentParticipants := s.event.currentParticipants + 1 },
          registrations := s.registrations ++ [r],
          nextRegId := s.nextRegId + 1 } uid 10 ∧
      s'.event.currentParticipants = s.event.currentParticipants + 1 ∧
      userPoints s' uid = (userPoints s uid).map (fun q => q + 10) ∧
      r.status = RegStatus.confirmed ∧
      (r.paymentStatus = PayStatus.notRequired ↔ s.event.registrationFee = 0) ∧
      (r.paymentStatus = PayStatus.pendingS ↔ 0 < s.event.registrationFee) ∧
      r.user = uid ∧ r.id = s.nextRegId ∧
      (qrOk = false → r.qrCode = none) := by
  obtain ⟨hd, hs, hlt⟩ := isRegistrationOpen_iff.mp hopen
  have hadd : addParticipant s.event =
      Except.ok { s.event with
        currentParticipants := s.event.currentParticipants + 1 } := by
    unfold addParticipant
    rw [if_pos hlt]
  refine ⟨{ id := s.nextRegId, user := uid, event := s.event.id,
            status := RegStatus.confirmed,
            paymentStatus :=
              if s.event.registrationFee > 0 then PayStatus.pendingS
              else PayStatus.notRequired,
            amountPaid := s.event.registrationFee,
            teamInfo :=
              if s.event.isTeamEvent then
                match teamName with
                | some nm =>
                    some { isTeamLead := true, teamName := nm,
                           teamCode := generateTeamCode now,
                           maxMembers := some s.event.teamSizeMax,
                           teamMembers := [] }
                | none => none
              else none,
            checkIn := initialCheckIn, attendance := initialAttendance,
            qrCode := if qrOk then some s.nextRegId else none,
            feedbackSubmittedAt := none }, _, ?_, rfl, rfl,
          userPoints_addPoints _ uid 10, rfl, ?_, ?_, rfl, rfl, ?_⟩
  · unfold createRegistration
    rw [if_neg (by simp), if_neg (by simp [hs]), if_neg (by simp [hopen]),
        if_neg (by simp [hnodup]),
        if_neg (by simp [jsGeOpt_eq_false_of_jsLtOpt hlt])]
    simp only [hadd]
  · by_cases h0 : s.event.registrationFee = 0
    · simp [h0]
    · simp [h0, Nat.pos_of_ne_zero h0]
  · by_cases h0 : s.event.registrationFee = 0
    · simp [h0]
    · simp [h0, Nat.pos_of_ne_zero h0]
  · intro h
    simp [h]

/-- Witness for C4: in the fee-7 open event, user 3's registration with a
failing QR step still succeeds, with payment status `pending` and a
10-point award. -/
theorem claim4_witness :
    (isRegistrationOpen c4St.event 100 = true ∧
     findRegByUserEvent c4St 3 c4St.event.id = none) ∧
    (∃ r s',
      createRegistration c4St 3 c4St.event.id none 100 false = Except.ok s' ∧
      s' = addPoints
        { c4St with
          event := { c4St.event with
            currentParticipants := c4St.event.currentParticipants + 1 },
          registrations := c4St.registrations ++ [r],
          nextRegId := c4St.nextRegId + 1 } 3 10 ∧
      s'.event.currentParticipants = c4St.event.currentParticipants + 1 ∧
      userPoints s' 3 = (userPoints c4St 3).map (fun q => q + 10) ∧
      r.status = RegStatus.confirmed ∧
      (r.paymentStatus = PayStatus.notRequired ↔ c4St.event.registrationFee = 0) ∧
      (r.paymentStatus = PayStatus.pendingS ↔ 0 < c4St.event.registrationFee) ∧
      r.user = 3 ∧ r.id = c4St.nextRegId ∧
      (false = false → r.qrCode = none)) :=
  ⟨⟨by decide, rfl⟩, claim4_create_success c4St 3 none 100 false (by decide) rfl⟩

/-- Claim C5: QR check-in validation.  A malformed (non-JSON) payload and
a wrong `type` discriminator are rejected by the type check (the
payload's check-in fields are `undefined` after the URL fallback); a
wrong event id, an age over 24 hours, and a registration-id mismatch are
each rejected with their own message; a payload passing all checks is
accepted.  The quantifier structure exhibits the order type → event →
age → registration (each earlier check fires regardless of later
fields); the four rejection reasons are pairwise distinct; and a failing
payload makes the check-in route reject with the same message. -/
theorem claim5_qr_validation (eid rid : Nat) (now : Int) :
    (∀ str : String, checkInQRCheck (QRInput.raw str) eid rid now =
      Except.error "Invalid QR code type for check-in") ∧
    (∀ d : QRData, d.type ≠ some "event-checkin" →
      checkInQRCheck (QRInput.json d) eid rid now =
        Except.error "Invalid QR code type for check-in") ∧
    (∀ d : QRData, d.type = some "event-checkin" → d.eventId ≠ some eid →
      checkInQRCheck (QRInput.json d) eid rid now =
        Except.error "QR code is for a different event") ∧
    (∀ (d : QRData) (ts : Int), d.type = some "event-checkin" →
      d.eventId = some eid → d.timestamp = some ts →
      24 * 60 * 60 * 1000 < now - ts →
      checkInQRCheck (QRInput.json d) eid rid now =
        Except.error "QR code has expired") ∧
    (∀ (d : QRData) (ts : Int), d.type = some "event-checkin" →
      d.eventId = some eid → d.timestamp = some ts →
      now - ts ≤ 24 * 60 * 60 * 1000 → d.registrationId ≠ some rid →
      checkInQRCheck (QRInput.json d) eid rid now =
        Except.error "QR code does not match this registration") ∧
    (∀ (d : QRData) (ts : Int), d.type = some "event-checkin" →
      d.eventId = some eid → d.timestamp = some ts →
      now - ts ≤ 24 * 60 * 60 * 1000 → d.registrationId = some rid →
      checkInQRCheck (QRInput.json d) eid rid now = Except.ok ()) ∧
    ("Invalid QR code type for check-in" ≠ "QR code is for a different event" ∧
     "Invalid QR code type for check-in" ≠ "QR code has expired" ∧
     "Invalid QR code type for check-in" ≠
       "QR code does not match this registration" ∧
     "QR code is for a different event" ≠ "QR code has expired" ∧
     "QR code is for a different event" ≠
       "QR code does not match this registration" ∧
     "QR code has expired" ≠ "QR code does not match this registration") ∧
    (∀ (s : St) (reg : Registration) (actor : User) (location : String)
        (inp : QRInput) (m : String),
      findReg s rid = some reg →
      (s.event.organizer = actor.id ∨ actor.id ∈ s.event.coOrganizers ∨
        actor.role = Role.admin) →
      reg.checkIn.isCheckedIn = false →
      checkInQRCheck inp s.event.id reg.id now = Except.error m →
      checkinRoute s rid actor "qr-code" location (some inp) now =
        Except.error m) := by
  refine ⟨fun str => rfl, ?_, ?_, ?_, ?_, ?_, by decide, ?_⟩
  · intro d h
    simp [checkInQRCheck, parseQRData, validateCheckInQR, h]
  · intro d h1 h2
    simp [checkInQRCheck, parseQRData, validateCheckInQR, h1, h2]
  · intro d ts h1 h2 h3 h4
    simp [checkInQRCheck, parseQRData, validateCheckInQR, h1, h2, h3]
    rw [if_pos (by omega)]
  · intro d ts h1 h2 h3 h4 h5
    simp [checkInQRCheck, parseQRData, validateCheckInQR, h1, h2, h3]
    rw [if_neg (by omega)]
    simp [h5]
  · intro d ts h1 h2 h3 h4 h5
    simp [checkInQRCheck, parseQRData, validateCheckInQR, h1, h2, h3, h5]
    rw [if_neg (by omega)]
    simp
  · intro s reg actor location inp m hfind hauth hnot hqr
    simp only [checkinRoute, hfind]
    rw [if_neg (not_not_intro hauth), if_neg (by simp [hnot])]
    simp [hqr]

/-- Witness for C5: a well-typed, right-event, fresh payload carrying a
foreign registration id is rejected with the
registration-mismatch message. -/
theorem claim5_witness :
    checkInQRCheck (QRInput.json
      { type := some "event-checkin", registrationId := some 9,
        eventId := some 1, timestamp := some 0 }) 1 2 0 =
      Except.error "QR code does not match this registration" :=
  (claim5_qr_validation 1 2 0).2.2.2.2.1 _ 0 rfl rfl rfl (by decide) (by decide)

/-- Claim C6 counterexample: the claim says a check-in request with
method 'self-checkin' by the registration's owner (who is neither
organizer, co-organizer nor admin) is accepted.  The route instead
requires organizer/co-organizer/admin for every method, so the owner's
self-checkin request is rejected as unauthorized. -/
theorem claim6_counterexample :
    c6Reg.user = c6Owner.id ∧ c6Owner.role = Role.student ∧
    c6St.event.organizer ≠ c6Owner.id ∧ c6Owner.id ∉ c6St.event.coOrganizers ∧
    checkinRoute c6St 1 c6Owner "self-checkin" "" none 100 =
      Except.error "Not authorized to check-in users for this event" :=
  ⟨rfl, rfl, by decide, by decide, rfl⟩

/-- Claim C6 (amended): check-in may be performed only by the event's
organizer, a co-organizer, or an admin, for every method including
'self-checkin' (the method value is accepted by input validation but
grants no authorization bypass); any other caller is rejected as
unauthorized. -/
theorem claim6_amended (s : St) (rid : Nat) (actor : User)
    (method location : String) (qrData : Option QRInput) (now : Int)
    (reg : Registration) (hfind : findReg s rid = some reg)
    (h1 : s.event.organizer ≠ actor.id) (h2 : actor.id ∉ s.event.coOrganizers)
    (h3 : actor.role ≠ Role.admin) :
    checkinRoute s rid actor method location qrData now =
      Except.error "Not authorized to check-in users for this event" := by
  simp only [checkinRoute, hfind]
  rw [if_pos (by simp [h1, h2, h3])]

/-- Witness for the amended C6: the owner's manual check-in request is
likewise rejected as unauthorized. -/
theorem claim6_witness :
    checkinRoute c6St 1 c6Owner "manual" "loc" none 50 =
      Except.error "Not authorized to check-in users for this event" :=
  claim6_amended c6St 1 c6Owner "manual" "loc" none 50 c6Reg rfl
    (by decide) (by decide) (by decide)

/-- Claim C7: check-in is idempotent-rejecting.  The first authorized
call on a not-yet-checked-in registration succeeds, stores the check-in
record with status `checked-in`, and awards exactly 20 points to the
attendee; every subsequent call is rejected with 'User is already
checked in', and any number of further calls leaves the attendee's
balance at exactly the original plus 20. -/
theorem claim7_checkin_idempotent_rejecting (s : St) (rid : Nat)
    (actor : User) (method location : String) (now : Int)
    (reg : Registration)
    (hfind : findReg s rid = some reg)
    (hnot : reg.checkIn.isCheckedIn = false)
    (hauth : s.event.organizer = actor.id ∨ actor.id ∈ s.event.coOrganizers ∨
      actor.role = Role.admin) :
    ∃ s₁, checkinRoute s rid actor method location none now = Except.ok s₁ ∧
      findReg s₁ rid = some (reg.markCheckedIn method location actor.id) ∧
      (reg.markCheckedIn method location actor.id).checkIn.isCheckedIn = true ∧
      (reg.markCheckedIn method location actor.id).status = RegStatus.checkedIn ∧
      userPoints s₁ reg.user = (userPoints s reg.user).map (fun q => q + 20) ∧
      (∀ (method' location' : String) (now' : Int),
        checkinRoute s₁ rid actor method' location' none now' =
          Except.error "User is already checked in") ∧
      (∀ n, applyCheckinCalls rid actor method location now s₁ n = s₁) ∧
      (∀ n, userPoints (applyCheckinCalls rid actor method location now s₁ n)
          reg.user = (userPoints s reg.user).map (fun q => q + 20)) := by
  have hsome : (s.registrations.find? (fun r => decide (r.id = rid))).isSome
      = true := by
    unfold findReg at hfind
    simp [hfind]
  have hreg : reg.id = rid := by
    unfold findReg at hfind
    have := List.find?_some hfind
    simpa using this
  set reg₁ := reg.markCheckedIn method location actor.id with hreg₁def
  have hid₁ : reg₁.id = rid := hreg
  set regs₁ := s.registrations.map (fun r => if r.id = rid then reg₁ else r)
    with hregs₁def
  set s₁ := addPoints { s with registrations := regs₁ } reg.user 20 with hs₁def
  have hev : s₁.event = s.event := rfl
  have hfind₁ : findReg s₁ rid = some reg₁ := by
    show regs₁.find? (fun r => decide (r.id = rid)) = some reg₁
    rw [hregs₁def]
    exact find?_map_updateById _ _ _ hid₁ hsome
  have hroute : checkinRoute s rid actor method location none now =
      Except.ok s₁ := by
    simp only [checkinRoute, hfind]
    rw [if_neg (not_not_intro hauth), if_neg (by simp [hnot])]
    by_cases hm : method = "qr-code" <;>
      simp [hm, hs₁def, hregs₁def, hreg₁def]
  have hpoints : userPoints s₁ reg.user =
      (userPoints s reg.user).map (fun q => q + 20) :=
    userPoints_addPoints _ reg.user 20
  have herr : ∀ (method' location' : String) (now' : Int),
      checkinRoute s₁ rid actor method' location' none now' =
        Except.error "User is already checked in" := by
    intro method' location' now'
    simp only [checkinRoute, hfind₁, hev]
    rw [if_neg (not_not_intro hauth),
        if_pos (show reg₁.checkIn.isCheckedIn = true from rfl)]
  have hfix : ∀ n, applyCheckinCalls rid actor method location now s₁ n = s₁ := by
    intro n
    induction n with
    | zero => rfl
    | succ k ih =>
        show applyCheckinCalls rid actor method location now
          (match checkinRoute s₁ rid actor method location none now with
           | Except.ok s' => s'
           | Except.error _ => s₁) k = s₁
        rw [herr method location now]
        exact ih
  exact ⟨s₁, hroute, hfind₁, rfl, rfl, hpoints, herr, hfix,
    fun n => by rw [hfix n]; exact hpoints⟩

/-- Witness for C7: the organizer checks user 1 in; the attendee's
balance goes from 10 to 30 and every further call is rejected. -/
theorem claim7_witness :
    (findReg c7St 1 = some c7Reg ∧ c7Reg.checkIn.isCheckedIn = false ∧
      (c7St.event.organizer = c7Organizer.id ∨
        c7Organizer.id ∈ c7St.event.coOrganizers ∨
        c7Organizer.role = Role.admin)) ∧
    ∃ s₁, checkinRoute c7St 1 c7Organizer "manual" "" none 100 =
        Except.ok s₁ ∧
      findReg s₁ 1 = some (c7Reg.markCheckedIn "manual" "" c7Organizer.id) ∧
      (c7Reg.markCheckedIn "manual" "" c7Organizer.id).checkIn.isCheckedIn = true ∧
      (c7Reg.markCheckedIn "manual" "" c7Organizer.id).status = RegStatus.checkedIn ∧
      userPoints s₁ c7Reg.user = (userPoints c7St c7Reg.user).map (fun q => q + 20) ∧
      (∀ (method' location' : String) (now' : Int),
        checkinRoute s₁ 1 c7Organizer method' location' none now' =
          Except.error "User is already checked in") ∧
      (∀ n, applyCheckinCalls 1 c7Organizer "manual" "" 100 s₁ n = s₁) ∧
      (∀ n, userPoints (applyCheckinCalls 1 c7Organizer "manual" "" 100 s₁ n)
          c7Reg.user = (userPoints c7St c7Reg.user).map (fun q => q + 20)) :=
  ⟨⟨rfl, rfl, Or.inl rfl⟩,
    claim7_checkin_idempotent_rejecting c7St 1 c7Organizer "manual" "" 100
      c7Reg rfl rfl (Or.inl rfl)⟩

/-- Replacing the (unique) document with a given id by one that satisfies
the filter predicate equally often keeps the filtered count. -/
lemma length_filter_map_updateById (l : List Registration) (lid : Nat)
    (lead leadNew : Registration) (p : Registration → Bool)
    (hids : ∀ r ∈ l, r.id = lid → r = lead)
    (hp : p leadNew = p lead) :
    ((l.map (fun r => if r.id = lid then leadNew else r)).filter p).length =
      (l.filter p).length := by
  rw [List.filter_map, List.length_map]
  refine congrArg List.length (List.filter_congr ?_)
  intro r hr
  by_cases h : r.id = lid
  · rw [Function.comp_apply, if_pos h, hids r hr h]
    exact hp
  · rw [Function.comp_apply, if_neg h]

/-- Claim C8: team capacity.  The concrete scenario: with
`teamSize.max = 3` the lead registers with team name "Rocket" and gets
code `TEAM-100`; two members join (3 registrations share the code, which
equals the lead's `maxMembers`); a third join attempt is rejected with
'Team is already full'.  In general, a join on a team whose recorded
size has reached `maxMembers` is rejected with that message, and a
successful join raises the number of registrations sharing the code by
exactly one while keeping it at most the lead's `maxMembers`. -/
theorem claim8_team_capacity :
    (createRegistration c8s0 1 1 (some "Rocket") 100 true = Except.ok c8s1 ∧
     generateTeamCode 100 = "TEAM-100" ∧
     codeCount c8s1 "TEAM-100" = 1 ∧
     joinTeam c8s1 2 "B" "b" "TEAM-100" 1 = Except.ok c8s2 ∧
     codeCount c8s2 "TEAM-100" = 2 ∧
     joinTeam c8s2 3 "C" "c" "TEAM-100" 1 = Except.ok c8s3 ∧
     codeCount c8s3 "TEAM-100" = 3 ∧
     c8lead3.teamInfo = some c8ti3 ∧ c8ti3.maxMembers = some 3 ∧
     joinTeam c8s3 4 "D" "d" "TEAM-100" 1 =
       Except.error "Team is already full") ∧
    (∀ (s : St) (uid : Nat) (un ue code : String) (eid : Nat)
        (lead : Registration) (ti : TeamInfo),
      findTeamLead s code eid = some lead →
      lead.teamInfo = some ti →
      findRegByUserEvent s uid eid = none →
      jsGeOpt (ti.teamMembers.length + 1) ti.maxMembers = true →
      joinTeam s uid un ue code eid = Except.error "Team is already full") ∧
    (∀ (s : St) (uid : Nat) (un ue code : String) (eid : Nat)
        (lead : Registration) (ti : TeamInfo) (m : Nat),
      findTeamLead s code eid = some lead →
      lead.teamInfo = some ti →
      ti.maxMembers = some m →
      findRegByUserEvent s uid eid = none →
      jsLtOpt s.event.currentParticipants s.event.maxParticipants = true →
      (∀ r ∈ s.registrations, r.id = lead.id → r = lead) →
      codeCount s code = ti.teamMembers.length + 1 →
      ti.teamMembers.length + 1 < m →
      ∃ s', joinTeam s uid un ue code eid = Except.ok s' ∧
        codeCount s' code = codeCount s code + 1 ∧
        codeCount s' code ≤ m) := by
  refine ⟨⟨rfl, rfl, rfl, rfl, rfl, rfl, rfl, rfl, rfl, rfl⟩, ?_, ?_⟩
  · intro s uid un ue code eid lead ti hfl hti hnodup hfull
    simp only [joinTeam, hfl, hti]
    rw [if_neg (by simp [hnodup]), if_pos hfull]
  · intro s uid un ue code eid lead ti m hfl hti hmm hnodup hcap hids
      hsync hlt
    have haddmem : lead.addTeamMember
        { user := uid, name := un, email := ue, role := "Member" } =
        Except.ok { lead with teamInfo := some { ti with
          teamMembers := ti.teamMembers ++
            [{ user := uid, name := un, email := ue, role := "Member" }] } } := by
      simp only [Registration.addTeamMember, hti, hmm]
      rw [if_neg (by simp only [decide_eq_true_eq]; omega)]
    have hap : addParticipant s.event = Except.ok { s.event with
        currentParticipants := s.event.currentParticipants + 1 } := by
      unfold addParticipant
      rw [if_pos hcap]
    set leadNew : Registration := { lead with teamInfo := some { ti with
      teamMembers := ti.teamMembers ++
        [{ user := uid, name := un, email := ue, role := "Member" }] } }
      with hleadDef
    set memberReg : Registration :=
      { id := s.nextRegId, user := uid, event := eid,
        status := RegStatus.confirmed,
        paymentStatus :=
          if s.event.registrationFee > 0 then PayStatus.pendingS
          else PayStatus.notRequired,
        amountPaid := s.event.registrationFee,
        teamInfo := some { isTeamLead := false, teamName := ti.teamName,
                           teamCode := code, maxMembers := none,
                           teamMembers := [] },
        checkIn := initialCheckIn, attendance := initialAttendance,
        qrCode := none, feedbackSubmittedAt := none } with hmemdef
    set regsNew : List Registration :=
      (s.registrations.map (fun r => if r.id = lead.id then leadNew else r)) ++
        [memberReg] with hregsDef
    set s₂ : St := addPoints
      { s with
        event := { s.event with
          currentParticipants := s.event.currentParticipants + 1 },
        registrations := regsNew,
        nextRegId := s.nextRegId + 1 } uid 10 with hsTwoDef
    have hEq : joinTeam s uid un ue code eid = Except.ok s₂ := by
      simp only [joinTeam, hfl, hti]
      rw [if_neg (by simp [hnodup]),
          if_neg (by simp only [jsGeOpt, hmm, decide_eq_true_eq]; omega)]
      simp only [haddmem, hap, hsTwoDef, hregsDef, hleadDef, hmemdef]
    have h1 : codeCount s₂ code = codeCount s code + 1 := by
      rw [hsTwoDef]
      simp only [codeCount, addPoints_registrations]
      rw [hregsDef]
      rw [List.filter_append, List.length_append,
          length_filter_map_updateById s.registrations lead.id lead leadNew _
            hids (by rw [hleadDef]; simp [hti])]
      simp [hmemdef, codeCount]
    exact ⟨s₂, hEq, h1, by omega⟩

/-- Witness for C8: on the full team, a further join attempt by user 4
is rejected with 'Team is already full'. -/
theorem claim8_witness :
    (findTeamLead c8s3 "TEAM-100" 1 = some c8lead3 ∧
     c8lead3.teamInfo = some c8ti3 ∧
     findRegByUserEvent c8s3 4 1 = none ∧
     jsGeOpt (c8ti3.teamMembers.length + 1) c8ti3.maxMembers = true) ∧
    joinTeam c8s3 4 "X" "x" "TEAM-100" 1 =
      Except.error "Team is already full" :=
  ⟨⟨rfl, rfl, rfl, by decide⟩,
    claim8_team_capacity.2.1 c8s3 4 "X" "x" "TEAM-100" 1 c8lead3 c8ti3
      rfl rfl rfl (by decide)⟩

/-- Claim C9: the spec invariant says `attendancePercentage` equals
attendedSessions/totalSessions×100 after any sequence of
session-attendance calls.  On a registration created by the routes the
attendance counters are never initialised: `totalSessions` starts
`undefined`, `undefined + 1` is `NaN`, the pre-save guard
`totalSessions > 0` is therefore always false, and the percentage stays
at its default 0 — after one attended session it is 0 where the claim
requires 1/1×100 = 100.  (The method's own `!this.attendance`
zero-initialisation branch is dead: the Mongoose nested object always
exists.)  This theorem evaluates the embedded code at the failing
input. -/
theorem claim9_attendance_percentage_stuck :
    (markSessionAttendanceAndSave initialAttendance "Session 1" true).sessions =
      [{ sessionName := "Session 1", attended := true }] ∧
    (markSessionAttendanceAndSave initialAttendance "Session 1"
      true).totalSessions = none ∧
    (markSessionAttendanceAndSave initialAttendance "Session 1"
      true).attendancePercentage = some 0 ∧
    ((1 : ℚ) / 1 * 100 = 100) ∧
    some (0 : ℚ) ≠ some (100 : ℚ) ∧
    (applySessionCalls initialAttendance
      [("Session 1", true), ("Session 2", true),
       ("Session 1", false)]).attendancePercentage = some 0 :=
  ⟨rfl, rfl, rfl, by norm_num, by decide, rfl⟩

/-- Claim C10: the public verification lookup returns a certificate only
when its status is 'active'.  After an admin revocation of a certificate
(verification codes being unique), looking its unchanged code up returns
nothing; and any certificate the lookup returns is active — so
`revoked`, `expired` and `pending` certificates never verify. -/
theorem claim10_verify_requires_active (certs : List Certificate)
    (c : Certificate) (revokedBy : Nat) (reason : String)
    (huniq : ∀ c' ∈ certs, c'.verificationCode = c.verificationCode → c' = c) :
    verifyCertificate (revokeById certs c.id revokedBy reason)
      c.verificationCode = none ∧
    (∀ (code : String) (c' : Certificate),
      verifyCertificate certs code = some c' →
      c'.status = CertStatus.activeS) := by
  constructor
  · induction certs with
    | nil => rfl
    | cons a t ih =>
        have hrest : ∀ c' ∈ t,
            c'.verificationCode = c.verificationCode → c' = c :=
          fun c' hc' => huniq c' (List.mem_cons_of_mem a hc')
        simp only [revokeById, List.map_cons, verifyCertificate]
        by_cases hid : a.id = c.id
        · rw [if_pos hid,
              List.find?_cons_of_neg _ (by simp [Certificate.revoke])]
          exact ih hrest
        · have hcode : a.verificationCode ≠ c.verificationCode := by
            intro hcode
            exact hid (congrArg Certificate.id
              (huniq a (List.mem_cons_self a t) hcode))
          rw [if_neg hid, List.find?_cons_of_neg _ (by simp [hcode])]
          exact ih hrest
  · intro code c' h
    unfold verifyCertificate at h
    have hp := List.find?_some h
    simp only [Bool.and_eq_true, decide_eq_true_eq] at hp
    exact hp.2

/-- Witness for C10: a concrete active certificate no longer verifies
after revocation. -/
theorem claim10_witness :
    verifyCertificate (revokeById [wCert] wCert.id 9 "violation")
      wCert.verificationCode = none :=
  (claim10_verify_requires_active [wCert] wCert 9 "violation" (by decide)).1

end Manthan
